import Mathlib

/-!
Shallow embedding of `backend/app/services/image_analysis_service.py`
(class `ImageAnalysisService`).

Modelling conventions:
* Decoded JSON values are the inductive `JVal`; JSON numbers are modelled as
  exact rationals (the only numeric operation in the code is the order
  comparison `confidence < 40`; the float specials `NaN`/`Infinity` are out of
  scope).
* Python operations that can raise inside the `try` block of
  `_parse_llm_analysis` are modelled in `Option`: `none` is an exception,
  which the surrounding handler converts to the fallback result.
* Python dicts are association lists with unique keys (the JSON decoder
  collapses duplicate keys with last-value-wins, as `json.loads` does).
* The result dict is the structure `AnalysisResult`; `severity = none` models
  the fallback dict, which carries no `severity` key, and
  `pest_info / disease_info = none` covers both a `None` value and an absent
  key.
-/

namespace AgriAid

/-- Decoded JSON value, as produced by `json.loads`. -/
inductive JVal where
  | null : JVal
  | bool (b : Bool) : JVal
  | num (q : Rat) : JVal
  | str (s : String) : JVal
  | arr (elems : List JVal) : JVal
  | obj (fields : List (String × JVal)) : JVal

/-- Record shape shared by `_build_pest_database` and `_build_disease_database`. -/
structure KnowledgeRecord where
  scientific_name : String
  local_name : String
  crops_affected : List String
  description : String
  control_methods : List String

/-- Python `data.get(k)` on a dict with unique keys. -/
def objGet (fields : List (String × JVal)) (k : String) : Option JVal :=
  match fields with
  | [] => none
  | (k2, v) :: rest => if k2 = k then some v else objGet rest k

/-- Python truthiness of a JSON-decoded value (`if not x`). -/
def truthy : JVal → Bool
  | .null => false
  | .bool b => b
  | .num q => decide (q ≠ 0)
  | .str s => !s.isEmpty
  | .arr es => !es.isEmpty
  | .obj fs => !fs.isEmpty

/-- Python `s.upper()` on the ASCII data this service handles. -/
def upper (s : String) : String := ⟨s.data.map Char.toUpper⟩

/-- Python `s.lower()` on the ASCII data this service handles. -/
def lower (s : String) : String := ⟨s.data.map Char.toLower⟩

/-- Boolean infix test on character lists (used for Python `needle in hay`). -/
def infixOf : List Char → List Char → Bool
  | needle, [] => needle.isEmpty
  | needle, c :: rest => needle.isPrefixOf (c :: rest) || infixOf needle rest

/-- Python `needle in hay` on strings. -/
def strContains (hay needle : String) : Bool := infixOf needle.data hay.data

/-- Python `key.replace("_", " ")`: the pattern is one character, so this is a
character map. -/
def replaceUnderscores (s : String) : String :=
  ⟨s.data.map (fun c => if c = '_' then ' ' else c)⟩

/-- Python `len(x)` on a JSON-decoded value; `none` is a `TypeError`. -/
def pyLen : JVal → Option Nat
  | .str s => some s.length
  | .arr es => some es.length
  | .obj fs => some fs.length
  | _ => none

/-- Python `x += t` for a string `t`; `none` is a `TypeError`. A list extends
itself with the characters of `t` (list `+=` takes any iterable). -/
def pyAppendStr : JVal → String → Option JVal
  | .str s, t => some (.str (s ++ t))
  | .arr es, t => some (.arr (es ++ t.data.map fun c => .str (String.singleton c)))
  | _, _ => none

/-- Python `str(x)` on a JSON-decoded value. Exact on the scalar cases; the
rendering of lists and dicts is schematic (the schema field this is applied
to, `detected_issue`, is a string, and no theorem below evaluates the
non-scalar cases). -/
def pyStr : JVal → String
  | .str s => s
  | .bool true => "True"
  | .bool false => "False"
  | .null => "None"
  | .num q => if q.den = 1 then toString q.num else toString q
  | .arr _ => "<list>"
  | .obj _ => "<dict>"

/-- Left brace character (ASCII 123). -/
def lbraceChar : Char := Char.ofNat 123

/-- Right brace character (ASCII 125). -/
def rbraceChar : Char := Char.ofNat 125

/-- Index of the first occurrence of `c`, if any. -/
def firstIdx (c : Char) : List Char → Option Nat
  | [] => none
  | a :: as => if a = c then some 0 else (firstIdx c as).map (· + 1)

/-- Index of the last occurrence of `c`, if any. -/
def lastIdx (c : Char) : List Char → Option Nat
  | [] => none
  | a :: as =>
    match lastIdx c as with
    | some k => some (k + 1)
    | none => if a = c then some 0 else none

/-- The regex step `re.search(r"\x7b.*\x7d", content, re.DOTALL)`: with DOTALL
and a greedy `.*`, the match (when one exists) runs from the first left brace
to the last right brace of the whole text, and a match exists exactly when the
last right brace lies strictly after the first left brace. -/
def extractJson (s : String) : Option String :=
  match firstIdx lbraceChar s.data, lastIdx rbraceChar s.data with
  | some i, some j => if i < j then some ⟨(s.data.drop i).take (j + 1 - i)⟩ else none
  | _, _ => none

/-! JSON decoding, modelling `json.loads` on the extracted substring (strict
mode: the grammar of RFC 8259 with the Python whitespace set; the float
specials `NaN`/`Infinity` are not modelled). -/

/-- JSON whitespace (the set `json.loads` skips). -/
def isWs (c : Char) : Bool := c = ' ' || c = '\t' || c = '\n' || c = '\r'

/-- Drop leading JSON whitespace. -/
def skipWs : List Char → List Char
  | [] => []
  | c :: rest => if isWs c then skipWs rest else c :: rest

/-- Value of a hex digit. -/
def hexVal (c : Char) : Option Nat :=
  if '0' ≤ c ∧ c ≤ '9' then some (c.toNat - 48)
  else if 'a' ≤ c ∧ c ≤ 'f' then some (c.toNat - 87)
  else if 'A' ≤ c ∧ c ≤ 'F' then some (c.toNat - 55)
  else none

/-- Scan the body of a JSON string literal (after the opening quote),
accumulating decoded characters in reverse. -/
def scanString (acc : List Char) : List Char → Option (String × List Char)
  | [] => none
  | c :: rest =>
    if c = '"' then some (⟨acc.reverse⟩, rest)
    else if c = '\\' then
      match rest with
      | [] => none
      | e :: rest2 =>
        if e = '"' then scanString ('"' :: acc) rest2
        else if e = '\\' then scanString ('\\' :: acc) rest2
        else if e = '/' then scanString ('/' :: acc) rest2
        else if e = 'b' then scanString (Char.ofNat 8 :: acc) rest2
        else if e = 'f' then scanString (Char.ofNat 12 :: acc) rest2
        else if e = 'n' then scanString ('\n' :: acc) rest2
        else if e = 'r' then scanString (Char.ofNat 13 :: acc) rest2
        else if e = 't' then scanString ('\t' :: acc) rest2
        else if e = 'u' then
          match rest2 with
          | a :: b :: c3 :: d :: rest3 =>
            match hexVal a, hexVal b, hexVal c3, hexVal d with
            | some x1, some x2, some x3, some x4 =>
              scanString (Char.ofNat (((x1 * 16 + x2) * 16 + x3) * 16 + x4) :: acc) rest3
            | _, _, _, _ => none
          | _ => none
        else none
    else if c.toNat < 32 then none
    else scanString (c :: acc) rest

/-- Digits to a natural number. -/
def digitsToNat (ds : List Char) : Nat := ds.foldl (fun n c => n * 10 + (c.toNat - 48)) 0

/-- Scan an optional JSON fraction part, returning its digits. -/
def scanFrac (cs : List Char) : Option (List Char × List Char) :=
  match cs with
  | c :: rest =>
    if c = '.' then
      let ds := rest.takeWhile Char.isDigit
      if ds.isEmpty then none else some (ds, rest.dropWhile Char.isDigit)
    else some ([], cs)
  | [] => some ([], cs)

/-- Scan an optional JSON exponent part. -/
def scanExp (cs : List Char) : Option (Int × List Char) :=
  match cs with
  | c :: rest =>
    if c = 'e' ∨ c = 'E' then
      let sr : Int × List Char :=
        match rest with
        | s :: r2 => if s = '-' then (-1, r2) else if s = '+' then (1, r2) else (1, rest)
        | [] => (1, rest)
      let ds := sr.2.takeWhile Char.isDigit
      if ds.isEmpty then none
      else some (sr.1 * (digitsToNat ds : Int), sr.2.dropWhile Char.isDigit)
    else some (0, cs)
  | [] => some (0, cs)

/-- Multiply by a power of ten given by an integer exponent (the zero
exponent is the identity, kept as a separate case so that plain integer
literals stay in normal form). -/
def applyExp (q : Rat) (e : Int) : Rat :=
  if e = 0 then q
  else if 0 ≤ e then q * (10 : Rat) ^ e.toNat
  else q / (10 : Rat) ^ (-e).toNat

/-- Scan a JSON number into an exact rational. -/
def scanNumber (cs : List Char) : Option (Rat × List Char) :=
  let nr : Bool × List Char :=
    match cs with
    | c :: rest => if c = '-' then (true, rest) else (false, c :: rest)
    | [] => (false, [])
  let intDigits := nr.2.takeWhile Char.isDigit
  let cs2 := nr.2.dropWhile Char.isDigit
  if intDigits.isEmpty then none
  else if 1 < intDigits.length ∧ intDigits.headD '0' = '0' then none
  else
    match scanFrac cs2 with
    | none => none
    | some (fds, cs3) =>
      match scanExp cs3 with
      | none => none
      | some (e, cs4) =>
        let base : Rat :=
          if fds.isEmpty then (digitsToNat intDigits : Rat)
          else (digitsToNat intDigits : Rat) + (digitsToNat fds : Rat) / (10 : Rat) ^ fds.length
        some (applyExp (if nr.1 then -base else base) e, cs4)

/-- Match an exact literal character sequence. -/
def stripLit : List Char → List Char → Option (List Char)
  | [], rest => some rest
  | p :: ps, c :: rest => if c = p then stripLit ps rest else none
  | _ :: _, [] => none

/-- Python dict insertion `d[k] = v`: an existing key keeps its position and
has its value overwritten; a fresh key is appended. -/
def insertKV : List (String × JVal) → String → JVal → List (String × JVal)
  | [], k, v => [(k, v)]
  | (k2, v2) :: rest, k, v =>
    if k2 = k then (k2, v) :: rest else (k2, v2) :: insertKV rest k v

mutual

/-- Parse one JSON value (fueled recursion; the fuel chosen by `jsonDecode`
dominates the recursion depth). -/
def pVal : Nat → List Char → Option (JVal × List Char)
  | 0, _ => none
  | Nat.succ fuel, cs =>
    match skipWs cs with
    | [] => none
    | c :: rest =>
      if c = lbraceChar then pObjStart fuel rest
      else if c = '[' then pArrStart fuel rest
      else if c = '"' then
        match scanString [] rest with
        | some (s, rest2) => some (.str s, rest2)
        | none => none
      else if c = 't' then
        match stripLit ['r', 'u', 'e'] rest with
        | some rest2 => some (.bool true, rest2)
        | none => none
      else if c = 'f' then
        match stripLit ['a', 'l', 's', 'e'] rest with
        | some rest2 => some (.bool false, rest2)
        | none => none
      else if c = 'n' then
        match stripLit ['u', 'l', 'l'] rest with
        | some rest2 => some (.null, rest2)
        | none => none
      else if c = '-' ∨ c.isDigit then
        match scanNumber (c :: rest) with
        | some (q, rest2) => some (.num q, rest2)
        | none => none
      else none

/-- Parse an object body after the opening brace. -/
def pObjStart : Nat → List Char → Option (JVal × List Char)
  | 0, _ => none
  | Nat.succ fuel, cs =>
    match skipWs cs with
    | c :: rest =>
      if c = rbraceChar then some (.obj [], rest)
      else if c = '"' then
        match scanString [] rest with
        | some (k, rest2) => pObjAfterKey fuel [] k rest2
        | none => none
      else none
    | [] => none

/-- Parse the colon and value after an object key, then continue. -/
def pObjAfterKey : Nat → List (String × JVal) → String → List Char → Option (JVal × List Char)
  | 0, _, _, _ => none
  | Nat.succ fuel, acc, k, cs =>
    match skipWs cs with
    | c :: rest =>
      if c = ':' then
        match pVal fuel rest with
        | some (v, rest2) => pObjAfterVal fuel (insertKV acc k v) rest2
        | none => none
      else none
    | [] => none

/-- Parse the separator after an object member: comma and next key, or the
closing brace. -/
def pObjAfterVal : Nat → List (String × JVal) → List Char → Option (JVal × List Char)
  | 0, _, _ => none
  | Nat.succ fuel, acc, cs =>
    match skipWs cs with
    | c :: rest =>
      if c = rbraceChar then some (.obj acc, rest)
      else if c = ',' then
        match skipWs rest with
        | c2 :: rest2 =>
          if c2 = '"' then
            match scanString [] rest2 with
            | some (k, rest3) => pObjAfterKey fuel acc k rest3
            | none => none
          else none
        | [] => none
      else none
    | [] => none

/-- Parse an array body after the opening bracket. -/
def pArrStart : Nat → List Char → Option (JVal × List Char)
  | 0, _ => none
  | Nat.succ fuel, cs =>
    match skipWs cs with
    | c :: _ =>
      if c = ']' then some (.arr [], (skipWs cs).tail)
      else
        match pVal fuel cs with
        | some (v, rest2) => pArrAfterVal fuel [v] rest2
        | none => none
    | [] => none

/-- Parse the separator after an array element: comma and next element, or the
closing bracket. -/
def pArrAfterVal : Nat → List JVal → List Char → Option (JVal × List Char)
  | 0, _, _ => none
  | Nat.succ fuel, acc, cs =>
    match skipWs cs with
    | c :: rest =>
      if c = ']' then some (.arr acc.reverse, rest)
      else if c = ',' then
        match pVal fuel rest with
        | some (v, rest2) => pArrAfterVal fuel (v :: acc) rest2
        | none => none
      else none
    | [] => none

end

/-- Python `json.loads` on the extracted substring: one JSON value, optionally
surrounded by whitespace, nothing else. The fuel `2 * length + 2` dominates
the recursion (every two recursive hops consume at least one character). -/
def jsonDecode (s : String) : Option JVal :=
  match pVal (2 * s.data.length + 2) s.data with
  | some (v, rest) => if (skipWs rest).isEmpty then some v else none
  | none => none

/-! Knowledge base: `_build_pest_database` and `_build_disease_database`,
record for record in source order. -/

/-- Pest record `armyworm`. -/
def armyworm : KnowledgeRecord where
  scientific_name := "Spodoptera litura / frugiperda"
  local_name := "Harabas / Uod"
  crops_affected := ["rice", "corn", "onion"]
  description := "Larvae feed on leaves leaving only veins. Major pest in Nueva Ecija and Pangasinan."
  control_methods := ["Biological control (Trichogramma)", "Spray Bacillus thuringiensis (Bt)",
    "Use pheromone traps"]

/-- Pest record `rice_black_bug`. -/
def rice_black_bug : KnowledgeRecord where
  scientific_name := "Scotinophara coarctata"
  local_name := "Itim na Atangya"
  crops_affected := ["rice"]
  description := "Sucks sap from the base of the plant causing \x27bugburn\x27. Common in Bicol and Visayas."
  control_methods := ["Light trapping during full moon", "Herding ducks in the field",
    "Submerge eggs by raising water level"]

/-- Pest record `brown_planthopper`. -/
def brown_planthopper : KnowledgeRecord where
  scientific_name := "Nilaparvata lugens"
  local_name := "Kayumangging Atangya"
  crops_affected := ["rice"]
  description := "Causes \x27hopperburn\x27 (browning and drying of crops). Transmits Ragged Stunt Virus."
  control_methods := ["Use resistant varieties (NSIC Rc)", "Avoid excessive nitrogen fertilizer",
    "Synchronous planting"]

/-- Pest record `corn_borer`. -/
def corn_borer : KnowledgeRecord where
  scientific_name := "Ostrinia furnacalis"
  local_name := "Uod ng Mais"
  crops_affected := ["corn"]
  description := "Larvae bore into stalks and ears. The most destructive corn pest in PH."
  control_methods := ["Detasseling", "Trichogramma release", "Planting Bt Corn (if approved)"]

/-- Pest record `cocolisap`. -/
def cocolisap : KnowledgeRecord where
  scientific_name := "Aspidiotus rigidus"
  local_name := "Cocolisap"
  crops_affected := ["coconut", "lanzones"]
  description := "Scale insects covering leaves, blocking photosynthesis. Historic outbreak in CALABARZON."
  control_methods := ["Pruning and burning affected parts", "Systemic trunk injection (FPA approved)",
    "Release of biocontrol agents"]

/-- Pest record `mango_cecid_fly`. -/
def mango_cecid_fly : KnowledgeRecord where
  scientific_name := "Procontarinia spp."
  local_name := "Kurikong"
  crops_affected := ["mango"]
  description := "Causes circular, brown, scab-like lesions on fruit skin."
  control_methods := ["Pruning overcrowded branches", "Bagging fruits early", "Proper orchard sanitation"]

/-- Pest record `stem_borer`. -/
def stem_borer : KnowledgeRecord where
  scientific_name := "Scirpophaga incertulas"
  local_name := "Aksip / Stem Borer"
  crops_affected := ["rice"]
  description := "Larvae bore into stem causing \x27deadheart\x27 (young stage) or \x27whitehead\x27 (reproductive stage)."
  control_methods := ["Light traps", "Pheromone traps", "Conservation of natural enemies"]

/-- The pest table of `_build_pest_database`, in insertion order (Python dicts
iterate in insertion order). -/
def pest_database : List (String × KnowledgeRecord) :=
  [("armyworm", armyworm), ("rice_black_bug", rice_black_bug),
   ("brown_planthopper", brown_planthopper), ("corn_borer", corn_borer),
   ("cocolisap", cocolisap), ("mango_cecid_fly", mango_cecid_fly),
   ("stem_borer", stem_borer)]

/-- Disease record `rice_blast`. -/
def rice_blast : KnowledgeRecord where
  scientific_name := "Magnaporthe oryzae"
  local_name := "Leeg-leeg (Neck Blast)"
  crops_affected := ["rice"]
  description := "Diamond-shaped lesions on leaves or rotting of the panicle neck."
  control_methods := ["Avoid excessive nitrogen", "Keep field flooded",
    "Use fungicides (Tricyclazole) as last resort"]

/-- Disease record `tungro`. -/
def tungro : KnowledgeRecord where
  scientific_name := "Rice Tungro Bacilliform Virus"
  local_name := "Tungro"
  crops_affected := ["rice"]
  description := "Yellow-orange discoloration of leaves, stunted growth. Vectored by Green Leafhopper."
  control_methods := ["Plant resistant varieties (Matatag lines)", "Control leafhopper vectors",
    "Roguing (removal) of infected plants"]

/-- Disease record `bacterial_leaf_blight`. -/
def bacterial_leaf_blight : KnowledgeRecord where
  scientific_name := "Xanthomonas oryzae"
  local_name := "Kuyog"
  crops_affected := ["rice"]
  description := "Yellowing and drying of leaf tips and margins. Common in wet season."
  control_methods := ["Balanced fertilization", "Proper drainage", "Clean field sanitation"]

/-- Disease record `panama_disease`. -/
def panama_disease : KnowledgeRecord where
  scientific_name := "Fusarium oxysporum TR4"
  local_name := "Fusarium Wilt"
  crops_affected := ["banana"]
  description := "Yellowing of older leaves, vascular discoloration. Major threat in Mindanao plantations."
  control_methods := ["Quarantine infected areas", "Disinfect tools/footwear",
    "Plant GCTCV-218 (resistant variety)"]

/-- The disease table of `_build_disease_database`, in insertion order. -/
def disease_database : List (String × KnowledgeRecord) :=
  [("rice_blast", rice_blast), ("tungro", tungro),
   ("bacterial_leaf_blight", bacterial_leaf_blight), ("panama_disease", panama_disease)]

/-! The result dict and the parsing pipeline of `_parse_llm_analysis`. -/

/-- The dict returned by `analyze_image` / `_parse_llm_analysis` /
`_get_fallback_analysis`. `severity = none` models the fallback dict, which
has no `severity` key; an info field of `none` covers both a Python `None`
value and an absent key. -/
structure AnalysisResult where
  plant_type : JVal
  pest_detected : Bool
  disease_detected : Bool
  health_status : JVal
  severity : Option String
  pest_info : Option KnowledgeRecord
  disease_info : Option KnowledgeRecord
  recommendations : List String
  sources : List String
  natural_summary : JVal

/-- The dict built by `_get_fallback_analysis`. -/
def get_fallback_analysis : AnalysisResult where
  plant_type := .str "Analysis Failed"
  pest_detected := false
  disease_detected := false
  health_status := .str "System Error"
  severity := none
  pest_info := none
  disease_info := none
  recommendations := []
  sources := []
  natural_summary := .str "I\x27m sorry, I couldn\x27t analyze that image clearly. Please try again with a better photo."

/-- The Non-Agricultural Result dict returned by the strict rejection gate. -/
def nonAgriResult (data : List (String × JVal)) : AnalysisResult where
  plant_type := .str "Non-Agricultural Object"
  pest_detected := false
  disease_detected := false
  health_status := .str "Not Agricultural"
  severity := some "None"
  pest_info := none
  disease_info := none
  recommendations := ["Please upload a clear photo of a crop, plant, or pest."]
  sources := []
  natural_summary :=
    (objGet data "natural_response").getD
      (.str "I\x27m sorry, I couldn\x27t recognize a plant or crop in this image.")

/-- Python `confidence < 40` on a JSON-decoded value: numbers compare
numerically, booleans compare as the integers 0 and 1, anything else is a
`TypeError` (`none`). -/
def confLt40 : JVal → Option Bool
  | .num q => some (decide (q < 40))
  | .bool b => some (decide ((if b then (1 : Rat) else 0) < 40))
  | _ => none

/-- The strict rejection test `not is_agricultural or confidence < 40` with
the defaults of lines 195-196; `not is_agricultural` short-circuits, so the
comparison (which can raise) only runs when `is_agricultural` is truthy. -/
def gateReject (data : List (String × JVal)) : Option Bool :=
  if !truthy ((objGet data "is_agricultural").getD (.bool false)) then some true
  else confLt40 ((objGet data "confidence_score").getD (.num 100))

/-- The match test of the database loops: spaced-and-uppercased identifier or
uppercased local name occurring in the uppercased detected issue. -/
def recMatches (key : String) (info : KnowledgeRecord) (contentUpper : String) : Bool :=
  strContains contentUpper (upper (replaceUnderscores key)) ||
    strContains contentUpper (upper info.local_name)

/-- One database loop (lines 229-237 resp. 240-246): take the first matching
record, replacing the recommendations, recording the match and appending the
resemblance sentence when the running summary is shorter than 50 characters
(`none` models an exception inside the loop body). -/
def dbLoop (db : List (String × KnowledgeRecord)) (contentUpper : String)
    (recs : List String) (ns : JVal) :
    Option (List String × Option KnowledgeRecord × JVal) :=
  match db with
  | [] => some (recs, none, ns)
  | (key, info) :: rest =>
    if recMatches key info contentUpper then
      match pyLen ns with
      | none => none
      | some n =>
        if n < 50 then
          match pyAppendStr ns (" This resembles " ++ info.local_name ++ ".") with
          | none => none
          | some ns2 => some (info.control_methods, some info, ns2)
        else some (info.control_methods, some info, ns)
    else dbLoop rest contentUpper recs ns

/-- The healthy branch body (lines 248-251): reset the recommendations and,
when the condition mentions healthy and the summary is shorter than 10
characters, overwrite the summary with the template sentence (the conjunction
short-circuits, so `len` only runs when the condition mentions healthy). -/
def healthyStep (plant_type : JVal) (cond : String) (ns : JVal) :
    Option (List String × JVal) :=
  if strContains (lower cond) "healthy" then
    match pyLen ns with
    | none => none
    | some n =>
      if n < 10 then
        some (["Continue Good Agricultural Practices (GAP).", "Regular monitoring."],
          .str ("The " ++ pyStr plant_type ++ " looks healthy. Keep up the good work!"))
      else
        some (["Continue Good Agricultural Practices (GAP).", "Regular monitoring."], ns)
  else
    some (["Continue Good Agricultural Practices (GAP).", "Regular monitoring."], ns)

/-- The accepted-agricultural branch (lines 212-264). `condition.upper()`
raises unless the condition is a string, so the branch is an exception
(`none`) on any non-string condition value. -/
def agriBranch (data : List (String × JVal)) : Option AnalysisResult :=
  let plant_type := (objGet data "plant_name").getD (.str "Unknown Crop")
  let detected_issue := (objGet data "detected_issue").getD (.str "")
  let ns0 := (objGet data "natural_response").getD (.str "")
  match (objGet data "condition").getD (.str "Unknown") with
  | .str cond =>
    let pest_detected := strContains (upper cond) "PEST"
    let disease_detected := strContains (upper cond) "DISEASE"
    let content_upper := upper (pyStr detected_issue)
    match (if pest_detected then
             dbLoop pest_database content_upper
               ["Monitor the crop closely.", "Consult your local technician."] ns0
           else
             some (["Monitor the crop closely.", "Consult your local technician."], none, ns0)) with
    | none => none
    | some (recs1, pinfo, ns1) =>
      match (if disease_detected then dbLoop disease_database content_upper recs1 ns1
             else some (recs1, none, ns1)) with
      | none => none
      | some (recs2, dinfo, ns2) =>
        match (if !pest_detected && !disease_detected then healthyStep plant_type cond ns2
               else some (recs2, ns2)) with
        | none => none
        | some (recsF, nsF) =>
          some { plant_type := plant_type
                 pest_detected := pest_detected
                 disease_detected := disease_detected
                 health_status := .str cond
                 severity := some (if pest_detected || disease_detected then "Moderate" else "None")
                 pest_info := pinfo
                 disease_info := dinfo
                 recommendations := recsF
                 sources := []
                 natural_summary := nsF }
  | _ => none

/-- The body after a successful decode: the gate, then either the
Non-Agricultural Result or the agricultural branch (`none` is an exception,
handled by the surrounding `except` as the fallback). -/
def processData (data : List (String × JVal)) : Option AnalysisResult :=
  match gateReject data with
  | none => none
  | some true => some (nonAgriResult data)
  | some false => agriBranch data

/-- `_parse_llm_analysis`: extraction, decoding, then the body; every failure
(no JSON-shaped substring, decode error, a decoded non-dict, or an exception
in the body) is caught by the `except` clause and yields the fallback. -/
def parse_llm_analysis (content : String) : AnalysisResult :=
  match extractJson content with
  | none => get_fallback_analysis
  | some js =>
    match jsonDecode js with
    | none => get_fallback_analysis
    | some (.obj data) =>
      match processData data with
      | some r => r
      | none => get_fallback_analysis
    | some _ => get_fallback_analysis

/-- Outcome of the external model call in `analyze_image`: either raw text
was obtained from the response, or some step before parsing raised (transport
failure, a malformed client response, and so on). -/
inductive ModelOutcome where
  | success (content : String) : ModelOutcome
  | failure : ModelOutcome

/-- `analyze_image`: parse the raw text on success; any exception in the
`try` block yields `_get_fallback_analysis()`. -/
def analyze_image : ModelOutcome → AnalysisResult
  | .success content => parse_llm_analysis content
  | .failure => get_fallback_analysis

/-! Proof layer: the database loops and the agricultural branch specialise to
total functions once the summary is a string, which is what every theorem
below threads through. -/

/-- The database loop specialised to a string-valued running summary (on
strings no exception can occur in the loop body). -/
def strLoop (db : List (String × KnowledgeRecord)) (contentUpper : String)
    (recs : List String) (s : String) :
    List String × Option KnowledgeRecord × String :=
  match db with
  | [] => (recs, none, s)
  | (key, info) :: rest =>
    if recMatches key info contentUpper then
      (info.control_methods, some info,
        if s.length < 50 then s ++ " This resembles " ++ info.local_name ++ "." else s)
    else strLoop rest contentUpper recs s

/-- On a string summary the fallible loop agrees with its total
specialisation. -/
theorem dbLoop_str (db : List (String × KnowledgeRecord)) (cu : String)
    (recs : List String) (s : String) :
    dbLoop db cu recs (.str s) =
      some ((strLoop db cu recs s).1, (strLoop db cu recs s).2.1,
        .str (strLoop db cu recs s).2.2) := by
  induction db with
  | nil => rfl
  | cons p rest ih =>
    obtain ⟨key, info⟩ := p
    by_cases h : recMatches key info cu = true
    · by_cases hl : s.length < 50 <;>
        simp [dbLoop, strLoop, h, hl, pyLen, pyAppendStr, String.append_assoc]
    · simp only [Bool.not_eq_true] at h
      simp [dbLoop, strLoop, h, ih]

/-- First-match behaviour of a database loop: the record after a prefix of
non-matching records wins, iteration stops there. -/
theorem strLoop_first_match (pre post : List (String × KnowledgeRecord)) (key : String)
    (info : KnowledgeRecord) (cu : String) (recs : List String) (s : String)
    (hpre : ∀ p ∈ pre, recMatches p.1 p.2 cu = false)
    (hm : recMatches key info cu = true) :
    strLoop (pre ++ (key, info) :: post) cu recs s =
      (info.control_methods, some info,
        if s.length < 50 then s ++ " This resembles " ++ info.local_name ++ "." else s) := by
  induction pre with
  | nil => simp [strLoop, hm]
  | cons p rest ih =>
    have hp := hpre p (List.mem_cons_self p rest)
    obtain ⟨k2, i2⟩ := p
    simp only [List.cons_append, strLoop]
    rw [hp]
    simp only [Bool.false_eq_true, if_neg, not_false_eq_true]
    exact ih fun q hq => hpre q (List.mem_cons_of_mem _ hq)

/-- No-match behaviour of a database loop: state is untouched. -/
theorem strLoop_no_match (db : List (String × KnowledgeRecord)) (cu : String)
    (recs : List String) (s : String)
    (h : ∀ p ∈ db, recMatches p.1 p.2 cu = false) :
    strLoop db cu recs s = (recs, none, s) := by
  induction db with
  | nil => rfl
  | cons p rest ih =>
    have hp := h p (List.mem_cons_self p rest)
    obtain ⟨k2, i2⟩ := p
    simp only [strLoop]
    rw [hp]
    simp only [Bool.false_eq_true, if_neg, not_false_eq_true]
    exact ih fun q hq => h q (List.mem_cons_of_mem _ hq)

/-- On a string summary the healthy step agrees with its total form. -/
theorem healthyStep_str (pt : JVal) (cond t : String) :
    healthyStep pt cond (.str t) =
      some (["Continue Good Agricultural Practices (GAP).", "Regular monitoring."],
        if strContains (lower cond) "healthy" && decide (t.length < 10)
        then .str ("The " ++ pyStr pt ++ " looks healthy. Keep up the good work!")
        else .str t) := by
  unfold healthyStep
  by_cases hh : strContains (lower cond) "healthy" = true
  · simp only [hh, if_pos, pyLen, Bool.true_and]
    by_cases hl : t.length < 10 <;> simp [hl]
  · simp only [Bool.not_eq_true] at hh
    simp [hh]

/-- Total restatement of the accepted-agricultural branch for string-typed
condition and summary, used by the theorems below through
`agriBranch_str`. -/
def agriResult (pt issueJ : JVal) (cond s : String) : AnalysisResult :=
  let pest := strContains (upper cond) "PEST"
  let dis := strContains (upper cond) "DISEASE"
  let cu := upper (pyStr issueJ)
  let st1 := if pest then
      strLoop pest_database cu ["Monitor the crop closely.", "Consult your local technician."] s
    else (["Monitor the crop closely.", "Consult your local technician."], none, s)
  let st2 := if dis then strLoop disease_database cu st1.1 st1.2.2
    else (st1.1, none, st1.2.2)
  { plant_type := pt
    pest_detected := pest
    disease_detected := dis
    health_status := .str cond
    severity := some (if pest || dis then "Moderate" else "None")
    pest_info := st1.2.1
    disease_info := st2.2.1
    recommendations :=
      if !pest && !dis then ["Continue Good Agricultural Practices (GAP).", "Regular monitoring."]
      else st2.1
    sources := []
    natural_summary :=
      if !pest && !dis then
        (if strContains (lower cond) "healthy" && decide (st2.2.2.length < 10)
         then .str ("The " ++ pyStr pt ++ " looks healthy. Keep up the good work!")
         else .str st2.2.2)
      else .str st2.2.2 }

/-- On string-typed condition and summary the agricultural branch completes
without exception and equals its total restatement. -/
theorem agriBranch_str (data : List (String × JVal)) (cond s : String)
    (hc : (objGet data "condition").getD (.str "Unknown") = .str cond)
    (hn : (objGet data "natural_response").getD (.str "") = .str s) :
    agriBranch data =
      some (agriResult ((objGet data "plant_name").getD (.str "Unknown Crop"))
        ((objGet data "detected_issue").getD (.str "")) cond s) := by
  unfold agriBranch agriResult
  rw [hc, hn]
  cases hp : strContains (upper cond) "PEST" <;>
    cases hdz : strContains (upper cond) "DISEASE" <;>
      simp [hp, hdz, dbLoop_str, healthyStep_str]

/-- Pipeline bridging: a successful extraction and decode followed by a
passing gate lands in the agricultural branch. -/
theorem parse_agri_eq (content js : String) (data : List (String × JVal)) (cond s : String)
    (hx : extractJson content = some js) (hd : jsonDecode js = some (.obj data))
    (hg : gateReject data = some false)
    (hc : (objGet data "condition").getD (.str "Unknown") = .str cond)
    (hn : (objGet data "natural_response").getD (.str "") = .str s) :
    parse_llm_analysis content =
      agriResult ((objGet data "plant_name").getD (.str "Unknown Crop"))
        ((objGet data "detected_issue").getD (.str "")) cond s := by
  have h1 : processData data =
      some (agriResult ((objGet data "plant_name").getD (.str "Unknown Crop"))
        ((objGet data "detected_issue").getD (.str "")) cond s) := by
    unfold processData
    rw [hg]
    exact agriBranch_str data cond s hc hn
  unfold parse_llm_analysis
  simp only [hx, hd, h1]

/-- Pipeline bridging: a rejecting gate yields the Non-Agricultural Result. -/
theorem parse_nonagri_eq (content js : String) (data : List (String × JVal))
    (hx : extractJson content = some js) (hd : jsonDecode js = some (.obj data))
    (hg : gateReject data = some true) :
    parse_llm_analysis content = nonAgriResult data := by
  have h1 : processData data = some (nonAgriResult data) := by
    unfold processData
    rw [hg]
  unfold parse_llm_analysis
  simp only [hx, hd, h1]

/-- Characterisation of `firstIdx`: the returned index holds the character
and nothing before it does. -/
theorem firstIdx_spec (c : Char) (cs : List Char) (i : Nat) :
    firstIdx c cs = some i ↔
      (cs[i]? = some c ∧ ∀ k, k < i → cs[k]? ≠ some c) := by
  induction cs generalizing i with
  | nil => simp [firstIdx]
  | cons a as ih =>
    rw [firstIdx]
    by_cases hac : a = c
    · subst hac
      rw [if_pos rfl]
      constructor
      · intro h
        obtain rfl : i = 0 := by injection h with h2; omega
        exact ⟨List.getElem?_cons_zero, by omega⟩
      · rintro ⟨h1, h2⟩
        cases i with
        | zero => rfl
        | succ i2 =>
          exact absurd (show (a :: as)[0]? = some a from List.getElem?_cons_zero)
            (h2 0 (Nat.succ_pos i2))
    · rw [if_neg hac, Option.map_eq_some']
      constructor
      · rintro ⟨i2, hfi, rfl⟩
        obtain ⟨h1, h2⟩ := (ih i2).mp hfi
        refine ⟨by simpa using h1, ?_⟩
        intro k hk
        cases k with
        | zero =>
          simp only [List.getElem?_cons_zero]
          intro hh
          exact hac (by injection hh)
        | succ k2 =>
          simpa using h2 k2 (by omega)
      · rintro ⟨h1, h2⟩
        cases i with
        | zero =>
          rw [List.getElem?_cons_zero] at h1
          exact absurd (by injection h1) hac
        | succ i2 =>
          rw [List.getElem?_cons_succ] at h1
          refine ⟨i2, (ih i2).mpr ⟨h1, ?_⟩, rfl⟩
          intro k hk
          have := h2 (k + 1) (by omega)
          simpa using this

/-- A `none` from `firstIdx` means the character is absent. -/
theorem firstIdx_none (c : Char) (cs : List Char) :
    firstIdx c cs = none ↔ ∀ k : Nat, cs[k]? ≠ some c := by
  induction cs with
  | nil => simp [firstIdx]
  | cons a as ih =>
    rw [firstIdx]
    by_cases hac : a = c
    · subst hac
      rw [if_pos rfl]
      constructor
      · intro h
        cases h
      · intro h
        exact absurd List.getElem?_cons_zero (h 0)
    · rw [if_neg hac, Option.map_eq_none', ih]
      constructor
      · intro h k
        cases k with
        | zero =>
          simp only [List.getElem?_cons_zero]
          intro hh
          exact hac (by injection hh)
        | succ k2 => simpa using h k2
      · intro h k
        have := h (k + 1)
        simpa using this

/-- The index returned by `lastIdx` holds the character. -/
theorem lastIdx_mem (c : Char) (cs : List Char) (k : Nat) (h : lastIdx c cs = some k) :
    cs[k]? = some c := by
  induction cs generalizing k with
  | nil => cases h
  | cons a as ih =>
    rw [lastIdx] at h
    cases hla : lastIdx c as with
    | some k2 =>
      rw [hla] at h
      injection h with h2
      subst h2
      simpa using ih k2 hla
    | none =>
      rw [hla] at h
      by_cases hac : a = c
      · subst hac
        rw [if_pos rfl] at h
        injection h with h2
        subst h2
        exact List.getElem?_cons_zero
      · rw [if_neg hac] at h
        cases h

/-- A `none` from `lastIdx` means the character is absent. -/
theorem lastIdx_none (c : Char) (cs : List Char) :
    lastIdx c cs = none ↔ ∀ k : Nat, cs[k]? ≠ some c := by
  induction cs with
  | nil => simp [lastIdx]
  | cons a as ih =>
    rw [lastIdx]
    cases hla : lastIdx c as with
    | some k =>
      constructor
      · intro h
        cases h
      · intro h
        have hmem : as[k]? = some c := lastIdx_mem c as k hla
        exact absurd (show (a :: as)[k + 1]? = some c by simpa using hmem) (h (k + 1))
    | none =>
      rw [ih] at hla
      by_cases hac : a = c
      · subst hac
        rw [if_pos rfl]
        constructor
        · intro h
          cases h
        · intro h
          exact absurd List.getElem?_cons_zero (h 0)
      · rw [if_neg hac]
        constructor
        · intro _ k
          cases k with
          | zero =>
            simp only [List.getElem?_cons_zero]
            intro hh
            exact hac (by injection hh)
          | succ k2 => simpa using hla k2
        · intro _
          rfl

/-- Characterisation of `lastIdx`: the returned index holds the character
and nothing after it does. -/
theorem lastIdx_spec (c : Char) (cs : List Char) (j : Nat) :
    lastIdx c cs = some j ↔
      (cs[j]? = some c ∧ ∀ k, j < k → cs[k]? ≠ some c) := by
  induction cs generalizing j with
  | nil => simp [lastIdx]
  | cons a as ih =>
    rw [lastIdx]
    cases hla : lastIdx c as with
    | some k =>
      obtain ⟨h1, h2⟩ := (ih k).mp hla
      constructor
      · intro h
        obtain rfl : j = k + 1 := by injection h with h3; omega
        refine ⟨by simpa using h1, ?_⟩
        intro m hm
        cases m with
        | zero => omega
        | succ m2 => simpa using h2 m2 (by omega)
      · rintro ⟨g1, g2⟩
        cases j with
        | zero =>
          have : (a :: as)[k + 1]? = some c := by simpa using h1
          exact absurd this (g2 (k + 1) (Nat.succ_pos k))
        | succ j2 =>
          rw [List.getElem?_cons_succ] at g1
          have hj2 : lastIdx c as = some j2 := by
            refine (ih j2).mpr ⟨g1, ?_⟩
            intro m hm
            have := g2 (m + 1) (by omega)
            simpa using this
          rw [hla] at hj2
          injection hj2 with hj3
          rw [hj3]
    | none =>
      have habs : ∀ k : Nat, as[k]? ≠ some c := (lastIdx_none c as).mp hla
      by_cases hac : a = c
      · subst hac
        rw [if_pos rfl]
        constructor
        · intro h
          obtain rfl : j = 0 := by injection h with h2; omega
          refine ⟨List.getElem?_cons_zero, ?_⟩
          intro m hm
          cases m with
          | zero => omega
          | succ m2 => simpa using habs m2
        · rintro ⟨g1, g2⟩
          cases j with
          | zero => rfl
          | succ j2 =>
            rw [List.getElem?_cons_succ] at g1
            exact absurd g1 (habs j2)
      · rw [if_neg hac]
        constructor
        · intro h
          cases h
        · rintro ⟨g1, g2⟩
          cases j with
          | zero =>
            rw [List.getElem?_cons_zero] at g1
            exact absurd (by injection g1) hac
          | succ j2 =>
            rw [List.getElem?_cons_succ] at g1
            exact absurd g1 (habs j2)

/-- Extraction hits the span from the first left brace to the last right
brace. -/
theorem extractJson_span (s : String) (i j : Nat)
    (hi : s.data[i]? = some lbraceChar)
    (hifirst : ∀ k, k < i → s.data[k]? ≠ some lbraceChar)
    (hj : s.data[j]? = some rbraceChar)
    (hjlast : ∀ k, j < k → s.data[k]? ≠ some rbraceChar)
    (hij : i < j) :
    extractJson s = some ⟨(s.data.drop i).take (j + 1 - i)⟩ := by
  unfold extractJson
  rw [(firstIdx_spec lbraceChar s.data i).mpr ⟨hi, hifirst⟩,
    (lastIdx_spec rbraceChar s.data j).mpr ⟨hj, hjlast⟩]
  exact if_pos hij

/-- Extraction fails when no left brace is followed by a later right brace. -/
theorem extractJson_none (s : String)
    (h : ∀ i j : Nat, i < j →
      ¬(s.data[i]? = some lbraceChar ∧ s.data[j]? = some rbraceChar)) :
    extractJson s = none := by
  unfold extractJson
  cases hfi : firstIdx lbraceChar s.data with
  | none => rfl
  | some i =>
    cases hla : lastIdx rbraceChar s.data with
    | none => rfl
    | some j =>
      show (if i < j then some (⟨(s.data.drop i).take (j + 1 - i)⟩ : String) else none) = none
      obtain ⟨h1, _⟩ := (firstIdx_spec lbraceChar s.data i).mp hfi
      have h2 := lastIdx_mem rbraceChar s.data j hla
      by_cases hij : i < j
      · exact absurd ⟨h1, h2⟩ (h i j hij)
      · exact if_neg hij

/-- A failed extraction routes to the fallback result. -/
theorem parse_extract_fail (s : String) (h : extractJson s = none) :
    parse_llm_analysis s = get_fallback_analysis := by
  unfold parse_llm_analysis
  simp only [h]

/-- A failed decode routes to the fallback result. -/
theorem parse_decode_fail (s js : String) (hx : extractJson s = some js)
    (hd : jsonDecode js = none) :
    parse_llm_analysis s = get_fallback_analysis := by
  unfold parse_llm_analysis
  simp only [hx, hd]

/-! The ten claims. -/

/-- C1 — Strict rejection gate: whenever extraction and decoding succeed and
the decoded object has `is_agricultural` absent or false, or a numeric
`confidence_score` strictly below 40, `_parse_llm_analysis` returns the
Non-Agricultural Result (fixed fields, single fixed recommendation, empty
sources, summary taken from `natural_response` when present, else the fixed
apology), regardless of all other fields. -/
theorem strict_rejection_gate (content js : String) (data : List (String × JVal))
    (hx : extractJson content = some js) (hd : jsonDecode js = some (.obj data))
    (hgate : objGet data "is_agricultural" = none ∨
      objGet data "is_agricultural" = some (.bool false) ∨
      ∃ q : Rat, objGet data "confidence_score" = some (.num q) ∧ q < 40) :
    parse_llm_analysis content =
      { plant_type := .str "Non-Agricultural Object"
        pest_detected := false
        disease_detected := false
        health_status := .str "Not Agricultural"
        severity := some "None"
        pest_info := none
        disease_info := none
        recommendations := ["Please upload a clear photo of a crop, plant, or pest."]
        sources := []
        natural_summary := (objGet data "natural_response").getD
          (.str "I\x27m sorry, I couldn\x27t recognize a plant or crop in this image.") } := by
  have hg : gateReject data = some true := by
    rcases hgate with h | h | ⟨q, hq, hlt⟩
    · simp [gateReject, h, truthy]
    · simp [gateReject, h, truthy]
    · by_cases ht : truthy ((objGet data "is_agricultural").getD (.bool false)) = true
      · simp [gateReject, ht, hq, confLt40, hlt]
      · simp only [Bool.not_eq_true] at ht
        simp [gateReject, ht]
  rw [parse_nonagri_eq content js data hx hd hg]
  rfl

/-- C1 witness: a concrete rejected upload. -/
theorem strict_rejection_gate_witness :
    parse_llm_analysis "\x7b\"is_agricultural\": false, \"natural_response\": \"I cannot analyze this. It looks like a car, not a crop.\"\x7d" =
      { plant_type := .str "Non-Agricultural Object"
        pest_detected := false
        disease_detected := false
        health_status := .str "Not Agricultural"
        severity := some "None"
        pest_info := none
        disease_info := none
        recommendations := ["Please upload a clear photo of a crop, plant, or pest."]
        sources := []
        natural_summary := .str "I cannot analyze this. It looks like a car, not a crop." } := by
  exact strict_rejection_gate _
    "\x7b\"is_agricultural\": false, \"natural_response\": \"I cannot analyze this. It looks like a car, not a crop.\"\x7d"
    [("is_agricultural", .bool false),
     ("natural_response", .str "I cannot analyze this. It looks like a car, not a crop.")]
    rfl rfl (Or.inr (Or.inl rfl))

/-- C2 — Totality of the caller-facing contract: `analyze_image` is a total
function of the model-call outcome; a transport failure, a failed extraction,
a failed decode, a decoded non-dict, and any exception in the body all yield
exactly the fixed Fallback Policy result, whose fields are spelled out. -/
theorem analyze_image_total_fallback :
    analyze_image .failure = get_fallback_analysis ∧
    (∀ content, analyze_image (.success content) = parse_llm_analysis content) ∧
    (∀ content, extractJson content = none →
      analyze_image (.success content) = get_fallback_analysis) ∧
    (∀ content js, extractJson content = some js → jsonDecode js = none →
      analyze_image (.success content) = get_fallback_analysis) ∧
    (∀ content js v, extractJson content = some js → jsonDecode js = some v →
      (∀ data, v ≠ JVal.obj data) →
      analyze_image (.success content) = get_fallback_analysis) ∧
    (∀ content js data, extractJson content = some js →
      jsonDecode js = some (.obj data) → processData data = none →
      analyze_image (.success content) = get_fallback_analysis) ∧
    get_fallback_analysis =
      { plant_type := .str "Analysis Failed"
        pest_detected := false
        disease_detected := false
        health_status := .str "System Error"
        severity := none
        pest_info := none
        disease_info := none
        recommendations := []
        sources := []
        natural_summary := .str "I\x27m sorry, I couldn\x27t analyze that image clearly. Please try again with a better photo." } := by
  refine ⟨rfl, fun content => rfl, ?_, ?_, ?_, ?_, rfl⟩
  · intro content h
    exact parse_extract_fail content h
  · intro content js hx hd
    exact parse_decode_fail content js hx hd
  · intro content js v hx hd hne
    show parse_llm_analysis content = get_fallback_analysis
    unfold parse_llm_analysis
    cases v with
    | obj data => exact absurd rfl (hne data)
    | null => simp only [hx, hd]
    | bool b => simp only [hx, hd]
    | num q => simp only [hx, hd]
    | str s => simp only [hx, hd]
    | arr es => simp only [hx, hd]
  · intro content js data hx hd hp
    show parse_llm_analysis content = get_fallback_analysis
    unfold parse_llm_analysis
    simp only [hx, hd, hp]

/-- C2 witness: a transport failure and a concrete junk response both land on
the fallback. -/
theorem analyze_image_total_fallback_witness :
    analyze_image .failure = get_fallback_analysis ∧
    analyze_image (.success "Not sure what I am looking at.") = get_fallback_analysis := by
  constructor
  · exact analyze_image_total_fallback.1
  · exact analyze_image_total_fallback.2.2.1 "Not sure what I am looking at." rfl

/-- C3 — JSON extraction: the candidate substring runs from the first left
brace to the last right brace (greedy, not nesting-aware); with no such pair
the parser returns the Fallback Policy result, and likewise when the
candidate fails to decode. -/
theorem extraction_first_to_last_brace :
    (∀ (s : String) (i j : Nat),
      s.data[i]? = some lbraceChar →
      (∀ k, k < i → s.data[k]? ≠ some lbraceChar) →
      s.data[j]? = some rbraceChar →
      (∀ k, j < k → s.data[k]? ≠ some rbraceChar) →
      i < j → extractJson s = some ⟨(s.data.drop i).take (j + 1 - i)⟩) ∧
    (∀ s : String,
      (∀ i j : Nat, i < j →
        ¬(s.data[i]? = some lbraceChar ∧ s.data[j]? = some rbraceChar)) →
      parse_llm_analysis s = get_fallback_analysis) ∧
    (∀ s js : String, extractJson s = some js → jsonDecode js = none →
      parse_llm_analysis s = get_fallback_analysis) := by
  refine ⟨extractJson_span, ?_, parse_decode_fail⟩
  intro s h
  exact parse_extract_fail s (extractJson_none s h)

/-- C3 witness: the greedy span on a concrete text, a brace-free text landing
on the fallback, and a non-JSON braced text landing on the fallback. -/
theorem extraction_first_to_last_brace_witness :
    extractJson "a\x7bb\x7dc" = some "\x7bb\x7d" ∧
    parse_llm_analysis "no json here" = get_fallback_analysis ∧
    parse_llm_analysis "\x7bnot valid json\x7d" = get_fallback_analysis := by
  refine ⟨?_, ?_, ?_⟩
  · obtain ⟨hi, hifirst⟩ := (firstIdx_spec lbraceChar "a\x7bb\x7dc".data 1).mp rfl
    obtain ⟨hj, hjlast⟩ := (lastIdx_spec rbraceChar "a\x7bb\x7dc".data 3).mp rfl
    exact extraction_first_to_last_brace.1 "a\x7bb\x7dc" 1 3 hi hifirst hj hjlast (by omega)
  · refine extraction_first_to_last_brace.2.1 "no json here" ?_
    intro i j hij hpair
    exact absurd hpair.1 ((firstIdx_none lbraceChar "no json here".data).mp rfl i)
  · exact extraction_first_to_last_brace.2.2 "\x7bnot valid json\x7d" "\x7bnot valid json\x7d" rfl rfl

/-- Projection of the agricultural result when only the pest flag is set and
the pest table has a first match. -/
theorem agriResult_pest_only (pt : JVal) (issue cond s : String)
    (hp : strContains (upper cond) "PEST" = true)
    (hdz : strContains (upper cond) "DISEASE" = false)
    (pre post : List (String × KnowledgeRecord)) (key : String) (info : KnowledgeRecord)
    (hsplit : pest_database = pre ++ (key, info) :: post)
    (hpre : ∀ p ∈ pre, recMatches p.1 p.2 (upper issue) = false)
    (hm : recMatches key info (upper issue) = true) :
    (agriResult pt (.str issue) cond s).recommendations = info.control_methods ∧
    (agriResult pt (.str issue) cond s).pest_info = some info ∧
    (agriResult pt (.str issue) cond s).disease_info = none := by
  unfold agriResult
  rw [hsplit]
  simp only [hp, hdz, pyStr]
  rw [strLoop_first_match pre post key info (upper issue) _ s hpre hm]
  simp

/-- Projection of the agricultural result when only the disease flag is set
and the disease table has a first match. -/
theorem agriResult_disease_only (pt : JVal) (issue cond s : String)
    (hp : strContains (upper cond) "PEST" = false)
    (hdz : strContains (upper cond) "DISEASE" = true)
    (pre post : List (String × KnowledgeRecord)) (key : String) (info : KnowledgeRecord)
    (hsplit : disease_database = pre ++ (key, info) :: post)
    (hpre : ∀ p ∈ pre, recMatches p.1 p.2 (upper issue) = false)
    (hm : recMatches key info (upper issue) = true) :
    (agriResult pt (.str issue) cond s).recommendations = info.control_methods ∧
    (agriResult pt (.str issue) cond s).disease_info = some info ∧
    (agriResult pt (.str issue) cond s).pest_info = none := by
  unfold agriResult
  rw [hsplit]
  simp only [hp, hdz, pyStr, Bool.false_eq_true, if_false, if_true, Bool.not_false,
    Bool.not_true, Bool.true_and, Bool.false_and, Bool.and_false, Bool.and_true]
  rw [strLoop_first_match pre post key info (upper issue) _ s hpre hm]
  simp

/-- Projection of the agricultural result when only the pest flag is set and
no pest record matches. -/
theorem agriResult_pest_nomatch (pt : JVal) (issue cond s : String)
    (hp : strContains (upper cond) "PEST" = true)
    (hdz : strContains (upper cond) "DISEASE" = false)
    (hno : ∀ p ∈ pest_database, recMatches p.1 p.2 (upper issue) = false) :
    (agriResult pt (.str issue) cond s).recommendations =
      ["Monitor the crop closely.", "Consult your local technician."] ∧
    (agriResult pt (.str issue) cond s).pest_info = none ∧
    (agriResult pt (.str issue) cond s).disease_info = none := by
  unfold agriResult
  simp only [hp, hdz, pyStr]
  rw [strLoop_no_match pest_database (upper issue) _ s hno]
  simp

/-- Projection of the agricultural result when only the disease flag is set
and no disease record matches. -/
theorem agriResult_disease_nomatch (pt : JVal) (issue cond s : String)
    (hp : strContains (upper cond) "PEST" = false)
    (hdz : strContains (upper cond) "DISEASE" = true)
    (hno : ∀ p ∈ disease_database, recMatches p.1 p.2 (upper issue) = false) :
    (agriResult pt (.str issue) cond s).recommendations =
      ["Monitor the crop closely.", "Consult your local technician."] ∧
    (agriResult pt (.str issue) cond s).disease_info = none ∧
    (agriResult pt (.str issue) cond s).pest_info = none := by
  unfold agriResult
  simp only [hp, hdz, pyStr, Bool.false_eq_true, if_false, if_true, Bool.not_false,
    Bool.not_true, Bool.true_and, Bool.false_and, Bool.and_false, Bool.and_true]
  rw [strLoop_no_match disease_database (upper issue) _ s hno]
  simp

/-- C4 — Knowledge Base matching: for an accepted agricultural parse with
exactly one detection flag set, the relevant table is scanned in insertion
order and the first record whose spaced-uppercased identifier or uppercased
local name occurs in the uppercased detected issue supplies the
recommendations and the info field; with no match the recommendations stay
at the generic default and the info field stays absent. -/
theorem kb_first_match_selection (content js : String) (data : List (String × JVal))
    (cond issue s : String)
    (hx : extractJson content = some js) (hd : jsonDecode js = some (.obj data))
    (hg : gateReject data = some false)
    (hc : (objGet data "condition").getD (.str "Unknown") = .str cond)
    (hi : (objGet data "detected_issue").getD (.str "") = .str issue)
    (hn : (objGet data "natural_response").getD (.str "") = .str s) :
    (strContains (upper cond) "PEST" = true → strContains (upper cond) "DISEASE" = false →
      ∀ pre post key info, pest_database = pre ++ (key, info) :: post →
        (∀ p ∈ pre, recMatches p.1 p.2 (upper issue) = false) →
        recMatches key info (upper issue) = true →
        (parse_llm_analysis content).recommendations = info.control_methods ∧
        (parse_llm_analysis content).pest_info = some info ∧
        (parse_llm_analysis content).disease_info = none) ∧
    (strContains (upper cond) "PEST" = false → strContains (upper cond) "DISEASE" = true →
      ∀ pre post key info, disease_database = pre ++ (key, info) :: post →
        (∀ p ∈ pre, recMatches p.1 p.2 (upper issue) = false) →
        recMatches key info (upper issue) = true →
        (parse_llm_analysis content).recommendations = info.control_methods ∧
        (parse_llm_analysis content).disease_info = some info ∧
        (parse_llm_analysis content).pest_info = none) ∧
    (strContains (upper cond) "PEST" = true → strContains (upper cond) "DISEASE" = false →
      (∀ p ∈ pest_database, recMatches p.1 p.2 (upper issue) = false) →
      (parse_llm_analysis content).recommendations =
        ["Monitor the crop closely.", "Consult your local technician."] ∧
      (parse_llm_analysis content).pest_info = none) ∧
    (strContains (upper cond) "PEST" = false → strContains (upper cond) "DISEASE" = true →
      (∀ p ∈ disease_database, recMatches p.1 p.2 (upper issue) = false) →
      (parse_llm_analysis content).recommendations =
        ["Monitor the crop closely.", "Consult your local technician."] ∧
      (parse_llm_analysis content).disease_info = none) := by
  have hpe := parse_agri_eq content js data cond s hx hd hg hc hn
  rw [hi] at hpe
  refine ⟨?_, ?_, ?_, ?_⟩
  · intro hp hdz pre post key info hsplit hpre hm
    rw [hpe]
    exact agriResult_pest_only _ issue cond s hp hdz pre post key info hsplit hpre hm
  · intro hp hdz pre post key info hsplit hpre hm
    rw [hpe]
    exact agriResult_disease_only _ issue cond s hp hdz pre post key info hsplit hpre hm
  · intro hp hdz hno
    rw [hpe]
    obtain ⟨h1, h2, _⟩ := agriResult_pest_nomatch
      ((objGet data "plant_name").getD (.str "Unknown Crop")) issue cond s hp hdz hno
    exact ⟨h1, h2⟩
  · intro hp hdz hno
    rw [hpe]
    obtain ⟨h1, h2, _⟩ := agriResult_disease_nomatch
      ((objGet data "plant_name").getD (.str "Unknown Crop")) issue cond s hp hdz hno
    exact ⟨h1, h2⟩

set_option maxRecDepth 16384 in
/-- C4 witness: the armyworm record (first in the pest table) matches a
concrete detected issue and supplies its control methods. -/
theorem kb_first_match_selection_witness :
    (parse_llm_analysis "\x7b\"is_agricultural\": true, \"plant_name\": \"Corn\", \"detected_issue\": \"Armyworm\", \"condition\": \"Pest Detected\", \"confidence_score\": 90, \"natural_response\": \"I see leaf damage on the corn plant here.\"\x7d").recommendations =
      armyworm.control_methods ∧
    (parse_llm_analysis "\x7b\"is_agricultural\": true, \"plant_name\": \"Corn\", \"detected_issue\": \"Armyworm\", \"condition\": \"Pest Detected\", \"confidence_score\": 90, \"natural_response\": \"I see leaf damage on the corn plant here.\"\x7d").pest_info =
      some armyworm := by
  have h := (kb_first_match_selection
    "\x7b\"is_agricultural\": true, \"plant_name\": \"Corn\", \"detected_issue\": \"Armyworm\", \"condition\": \"Pest Detected\", \"confidence_score\": 90, \"natural_response\": \"I see leaf damage on the corn plant here.\"\x7d"
    "\x7b\"is_agricultural\": true, \"plant_name\": \"Corn\", \"detected_issue\": \"Armyworm\", \"condition\": \"Pest Detected\", \"confidence_score\": 90, \"natural_response\": \"I see leaf damage on the corn plant here.\"\x7d"
    [("is_agricultural", .bool true), ("plant_name", .str "Corn"),
     ("detected_issue", .str "Armyworm"), ("condition", .str "Pest Detected"),
     ("confidence_score", .num 90),
     ("natural_response", .str "I see leaf damage on the corn plant here.")]
    "Pest Detected" "Armyworm" "I see leaf damage on the corn plant here."
    rfl rfl rfl rfl rfl rfl).1 rfl rfl []
    [("rice_black_bug", rice_black_bug), ("brown_planthopper", brown_planthopper),
     ("corn_borer", corn_borer), ("cocolisap", cocolisap),
     ("mango_cecid_fly", mango_cecid_fly), ("stem_borer", stem_borer)]
    "armyworm" armyworm rfl (by intro p hp2; cases hp2) rfl
  exact ⟨h.1, h.2.1⟩

/-- C5 — Detection flags: for an accepted agricultural parse the pest flag is
exactly the occurrence of PEST in the uppercased condition and the disease
flag exactly the occurrence of DISEASE; the tests are independent, and the
condition Pest and Disease Detected passes both. -/
theorem detection_flags_substring (content js : String) (data : List (String × JVal))
    (cond s : String)
    (hx : extractJson content = some js) (hd : jsonDecode js = some (.obj data))
    (hg : gateReject data = some false)
    (hc : (objGet data "condition").getD (.str "Unknown") = .str cond)
    (hn : (objGet data "natural_response").getD (.str "") = .str s) :
    (parse_llm_analysis content).pest_detected = strContains (upper cond) "PEST" ∧
    (parse_llm_analysis content).disease_detected = strContains (upper cond) "DISEASE" ∧
    strContains (upper "Pest and Disease Detected") "PEST" = true ∧
    strContains (upper "Pest and Disease Detected") "DISEASE" = true := by
  have hpe := parse_agri_eq content js data cond s hx hd hg hc hn
  rw [hpe]
  refine ⟨?_, ?_, rfl, rfl⟩ <;> simp [agriResult]

/-- C5 witness: both flags turn on together for the condition naming both a
pest and a disease. -/
theorem detection_flags_substring_witness :
    (parse_llm_analysis "\x7b\"is_agricultural\": true, \"plant_name\": \"Rice\", \"condition\": \"Pest and Disease Detected\", \"natural_response\": \"hm\"\x7d").pest_detected = true ∧
    (parse_llm_analysis "\x7b\"is_agricultural\": true, \"plant_name\": \"Rice\", \"condition\": \"Pest and Disease Detected\", \"natural_response\": \"hm\"\x7d").disease_detected = true := by
  have h := detection_flags_substring
    "\x7b\"is_agricultural\": true, \"plant_name\": \"Rice\", \"condition\": \"Pest and Disease Detected\", \"natural_response\": \"hm\"\x7d"
    "\x7b\"is_agricultural\": true, \"plant_name\": \"Rice\", \"condition\": \"Pest and Disease Detected\", \"natural_response\": \"hm\"\x7d"
    [("is_agricultural", .bool true), ("plant_name", .str "Rice"),
     ("condition", .str "Pest and Disease Detected"), ("natural_response", .str "hm")]
    "Pest and Disease Detected" "hm" rfl rfl rfl rfl rfl
  refine ⟨?_, ?_⟩
  · rw [h.1]
    rfl
  · rw [h.2.1]
    rfl

/-- C6 — Determinism of the parser: on byte-identical raw text the parser
(and the surrounding analysis call) produces identical results; in this
embedding `_parse_llm_analysis` is a pure function of its input string and
the immutable knowledge base, so equal inputs give equal outputs. -/
theorem parser_deterministic (c1 c2 : String) (h : c1 = c2) :
    parse_llm_analysis c1 = parse_llm_analysis c2 ∧
    analyze_image (.success c1) = analyze_image (.success c2) := by
  subst h
  exact ⟨rfl, rfl⟩

/-- C6 witness: two invocations on the same concrete text agree. -/
theorem parser_deterministic_witness :
    parse_llm_analysis "\x7b\"is_agricultural\": true\x7d" =
      parse_llm_analysis "\x7b\"is_agricultural\": true\x7d" :=
  (parser_deterministic "\x7b\"is_agricultural\": true\x7d" "\x7b\"is_agricultural\": true\x7d" rfl).1

/-- C7 — Severity: for an accepted agricultural parse the severity is
Moderate exactly when a detection flag is set, else None, and no other value
occurs on this branch. -/
theorem severity_moderate_or_none (content js : String) (data : List (String × JVal))
    (cond s : String)
    (hx : extractJson content = some js) (hd : jsonDecode js = some (.obj data))
    (hg : gateReject data = some false)
    (hc : (objGet data "condition").getD (.str "Unknown") = .str cond)
    (hn : (objGet data "natural_response").getD (.str "") = .str s) :
    (parse_llm_analysis content).severity =
      some (if strContains (upper cond) "PEST" || strContains (upper cond) "DISEASE"
        then "Moderate" else "None") ∧
    ((parse_llm_analysis content).severity = some "Moderate" ∨
      (parse_llm_analysis content).severity = some "None") := by
  have hpe := parse_agri_eq content js data cond s hx hd hg hc hn
  rw [hpe]
  constructor
  · simp [agriResult]
  · by_cases hb : (strContains (upper cond) "PEST" || strContains (upper cond) "DISEASE") = true
    · left
      simp [agriResult, hb]
    · right
      simp only [Bool.not_eq_true, Bool.or_eq_false_iff] at hb
      simp [agriResult, hb.1, hb.2]

/-- C7 witness: a concrete pest parse carries severity Moderate. -/
theorem severity_moderate_or_none_witness :
    (parse_llm_analysis "\x7b\"is_agricultural\": true, \"plant_name\": \"Rice\", \"condition\": \"Pest Detected\", \"natural_response\": \"hm\"\x7d").severity =
      some "Moderate" := by
  have h := severity_moderate_or_none
    "\x7b\"is_agricultural\": true, \"plant_name\": \"Rice\", \"condition\": \"Pest Detected\", \"natural_response\": \"hm\"\x7d"
    "\x7b\"is_agricultural\": true, \"plant_name\": \"Rice\", \"condition\": \"Pest Detected\", \"natural_response\": \"hm\"\x7d"
    [("is_agricultural", .bool true), ("plant_name", .str "Rice"),
     ("condition", .str "Pest Detected"), ("natural_response", .str "hm")]
    "Pest Detected" "hm" rfl rfl rfl rfl rfl
  rw [h.1]
  rfl

/-- C8 — Healthy branch: with neither flag set the recommendations become the
good-practice default, the severity is None, and when the condition mentions
healthy and the summary is shorter than 10 characters the summary is
overwritten with the template naming the plant type. -/
theorem healthy_branch_defaults (content js : String) (data : List (String × JVal))
    (cond s : String)
    (hx : extractJson content = some js) (hd : jsonDecode js = some (.obj data))
    (hg : gateReject data = some false)
    (hc : (objGet data "condition").getD (.str "Unknown") = .str cond)
    (hn : (objGet data "natural_response").getD (.str "") = .str s)
    (hp : strContains (upper cond) "PEST" = false)
    (hdz : strContains (upper cond) "DISEASE" = false) :
    (parse_llm_analysis content).recommendations =
      ["Continue Good Agricultural Practices (GAP).", "Regular monitoring."] ∧
    (parse_llm_analysis content).severity = some "None" ∧
    (strContains (lower cond) "healthy" = true → s.length < 10 →
      (parse_llm_analysis content).natural_summary =
        .str ("The " ++ pyStr ((objGet data "plant_name").getD (.str "Unknown Crop")) ++
          " looks healthy. Keep up the good work!")) := by
  have hpe := parse_agri_eq content js data cond s hx hd hg hc hn
  rw [hpe]
  refine ⟨?_, ?_, ?_⟩
  · simp [agriResult, hp, hdz]
  · simp [agriResult, hp, hdz]
  · intro hh hlen
    simp [agriResult, hp, hdz, hh, hlen]

set_option maxRecDepth 16384 in
/-- C8 witness: the healthy Corn scenario overwrites the empty summary with
the template and reports severity None. -/
theorem healthy_branch_defaults_witness :
    (parse_llm_analysis "\x7b\"is_agricultural\": true, \"plant_name\": \"Corn\", \"condition\": \"Healthy\", \"natural_response\": \"\"\x7d").severity = some "None" ∧
    (parse_llm_analysis "\x7b\"is_agricultural\": true, \"plant_name\": \"Corn\", \"condition\": \"Healthy\", \"natural_response\": \"\"\x7d").natural_summary =
      .str "The Corn looks healthy. Keep up the good work!" := by
  have h := healthy_branch_defaults
    "\x7b\"is_agricultural\": true, \"plant_name\": \"Corn\", \"condition\": \"Healthy\", \"natural_response\": \"\"\x7d"
    "\x7b\"is_agricultural\": true, \"plant_name\": \"Corn\", \"condition\": \"Healthy\", \"natural_response\": \"\"\x7d"
    [("is_agricultural", .bool true), ("plant_name", .str "Corn"),
     ("condition", .str "Healthy"), ("natural_response", .str "")]
    "Healthy" "" rfl rfl rfl rfl rfl rfl rfl
  refine ⟨h.2.1, ?_⟩
  rw [h.2.2 rfl (by decide)]
  rfl

/-- C9 — Health status passthrough: for an accepted agricultural parse the
returned health status is the condition string verbatim, which is the value
Unknown exactly when the condition field is absent. -/
theorem health_status_passthrough (content js : String) (data : List (String × JVal))
    (cond s : String)
    (hx : extractJson content = some js) (hd : jsonDecode js = some (.obj data))
    (hg : gateReject data = some false)
    (hc : (objGet data "condition").getD (.str "Unknown") = .str cond)
    (hn : (objGet data "natural_response").getD (.str "") = .str s) :
    (parse_llm_analysis content).health_status = .str cond ∧
    (objGet data "condition" = none → cond = "Unknown") := by
  have hpe := parse_agri_eq content js data cond s hx hd hg hc hn
  constructor
  · rw [hpe]
    rfl
  · intro habs
    rw [habs, Option.getD_none] at hc
    injection hc with h2
    exact h2.symm

set_option maxRecDepth 16384 in
/-- C9 witness: a verbatim non-enum condition string passes through to the
health status unchanged. -/
theorem health_status_passthrough_witness :
    (parse_llm_analysis "\x7b\"is_agricultural\": true, \"plant_name\": \"Rice\", \"condition\": \"Slightly wilted\", \"natural_response\": \"hm\"\x7d").health_status =
      .str "Slightly wilted" :=
  (health_status_passthrough
    "\x7b\"is_agricultural\": true, \"plant_name\": \"Rice\", \"condition\": \"Slightly wilted\", \"natural_response\": \"hm\"\x7d"
    "\x7b\"is_agricultural\": true, \"plant_name\": \"Rice\", \"condition\": \"Slightly wilted\", \"natural_response\": \"hm\"\x7d"
    [("is_agricultural", .bool true), ("plant_name", .str "Rice"),
     ("condition", .str "Slightly wilted"), ("natural_response", .str "hm")]
    "Slightly wilted" "hm" rfl rfl rfl rfl rfl).1

/-- Projection of the agricultural result when both flags are set and both
tables have a first match. -/
theorem agriResult_both_match (pt : JVal) (issue cond s : String)
    (hp : strContains (upper cond) "PEST" = true)
    (hdz : strContains (upper cond) "DISEASE" = true)
    (preP postP : List (String × KnowledgeRecord)) (keyP : String) (infoP : KnowledgeRecord)
    (hsplitP : pest_database = preP ++ (keyP, infoP) :: postP)
    (hpreP : ∀ p ∈ preP, recMatches p.1 p.2 (upper issue) = false)
    (hmP : recMatches keyP infoP (upper issue) = true)
    (preD postD : List (String × KnowledgeRecord)) (keyD : String) (infoD : KnowledgeRecord)
    (hsplitD : disease_database = preD ++ (keyD, infoD) :: postD)
    (hpreD : ∀ p ∈ preD, recMatches p.1 p.2 (upper issue) = false)
    (hmD : recMatches keyD infoD (upper issue) = true) :
    (agriResult pt (.str issue) cond s).recommendations = infoD.control_methods ∧
    (agriResult pt (.str issue) cond s).pest_info = some infoP ∧
    (agriResult pt (.str issue) cond s).disease_info = some infoD ∧
    (agriResult pt (.str issue) cond s).natural_summary =
      .str (let s1 := if s.length < 50
              then s ++ " This resembles " ++ infoP.local_name ++ "." else s
            if s1.length < 50 then s1 ++ " This resembles " ++ infoD.local_name ++ "."
            else s1) := by
  unfold agriResult
  rw [hsplitP, hsplitD]
  simp only [hp, hdz, pyStr]
  rw [strLoop_first_match preP postP keyP infoP (upper issue) _ s hpreP hmP]
  rw [strLoop_first_match preD postD keyD infoD (upper issue) _ _ hpreD hmD]
  simp

/-- C10 — Disease match overwrites pest recommendations: with both flags set
and a first match in each table, the recommendations are the disease record
control methods (the disease loop runs second), both info fields carry their
matches, and the disease resemblance sentence is appended only when the
summary is still shorter than 50 characters after the pest append. -/
theorem disease_match_overwrites (content js : String) (data : List (String × JVal))
    (cond issue s : String)
    (hx : extractJson content = some js) (hd : jsonDecode js = some (.obj data))
    (hg : gateReject data = some false)
    (hc : (objGet data "condition").getD (.str "Unknown") = .str cond)
    (hi : (objGet data "detected_issue").getD (.str "") = .str issue)
    (hn : (objGet data "natural_response").getD (.str "") = .str s)
    (hp : strContains (upper cond) "PEST" = true)
    (hdz : strContains (upper cond) "DISEASE" = true)
    (preP postP : List (String × KnowledgeRecord)) (keyP : String) (infoP : KnowledgeRecord)
    (hsplitP : pest_database = preP ++ (keyP, infoP) :: postP)
    (hpreP : ∀ p ∈ preP, recMatches p.1 p.2 (upper issue) = false)
    (hmP : recMatches keyP infoP (upper issue) = true)
    (preD postD : List (String × KnowledgeRecord)) (keyD : String) (infoD : KnowledgeRecord)
    (hsplitD : disease_database = preD ++ (keyD, infoD) :: postD)
    (hpreD : ∀ p ∈ preD, recMatches p.1 p.2 (upper issue) = false)
    (hmD : recMatches keyD infoD (upper issue) = true) :
    (parse_llm_analysis content).recommendations = infoD.control_methods ∧
    (parse_llm_analysis content).pest_info = some infoP ∧
    (parse_llm_analysis content).disease_info = some infoD ∧
    (parse_llm_analysis content).natural_summary =
      .str (let s1 := if s.length < 50
              then s ++ " This resembles " ++ infoP.local_name ++ "." else s
            if s1.length < 50 then s1 ++ " This resembles " ++ infoD.local_name ++ "."
            else s1) := by
  have hpe := parse_agri_eq content js data cond s hx hd hg hc hn
  rw [hi] at hpe
  rw [hpe]
  exact agriResult_both_match _ issue cond s hp hdz preP postP keyP infoP hsplitP hpreP hmP
    preD postD keyD infoD hsplitD hpreD hmD

set_option maxRecDepth 16384 in
/-- C10 witness: armyworm and rice blast are first in their tables, both
match, the disease control methods win, and both sentences are appended. -/
theorem disease_match_overwrites_witness :
    (parse_llm_analysis "\x7b\"is_agricultural\": true, \"plant_name\": \"Rice\", \"detected_issue\": \"Armyworm and Rice Blast\", \"condition\": \"Pest and Disease Detected\", \"natural_response\": \"hm\"\x7d").recommendations =
      rice_blast.control_methods ∧
    (parse_llm_analysis "\x7b\"is_agricultural\": true, \"plant_name\": \"Rice\", \"detected_issue\": \"Armyworm and Rice Blast\", \"condition\": \"Pest and Disease Detected\", \"natural_response\": \"hm\"\x7d").pest_info =
      some armyworm ∧
    (parse_llm_analysis "\x7b\"is_agricultural\": true, \"plant_name\": \"Rice\", \"detected_issue\": \"Armyworm and Rice Blast\", \"condition\": \"Pest and Disease Detected\", \"natural_response\": \"hm\"\x7d").disease_info =
      some rice_blast ∧
    (parse_llm_analysis "\x7b\"is_agricultural\": true, \"plant_name\": \"Rice\", \"detected_issue\": \"Armyworm and Rice Blast\", \"condition\": \"Pest and Disease Detected\", \"natural_response\": \"hm\"\x7d").natural_summary =
      .str "hm This resembles Harabas / Uod. This resembles Leeg-leeg (Neck Blast)." := by
  have h := disease_match_overwrites
    "\x7b\"is_agricultural\": true, \"plant_name\": \"Rice\", \"detected_issue\": \"Armyworm and Rice Blast\", \"condition\": \"Pest and Disease Detected\", \"natural_response\": \"hm\"\x7d"
    "\x7b\"is_agricultural\": true, \"plant_name\": \"Rice\", \"detected_issue\": \"Armyworm and Rice Blast\", \"condition\": \"Pest and Disease Detected\", \"natural_response\": \"hm\"\x7d"
    [("is_agricultural", .bool true), ("plant_name", .str "Rice"),
     ("detected_issue", .str "Armyworm and Rice Blast"),
     ("condition", .str "Pest and Disease Detected"), ("natural_response", .str "hm")]
    "Pest and Disease Detected" "Armyworm and Rice Blast" "hm"
    rfl rfl rfl rfl rfl rfl rfl rfl
    [] [("rice_black_bug", rice_black_bug), ("brown_planthopper", brown_planthopper),
     ("corn_borer", corn_borer), ("cocolisap", cocolisap),
     ("mango_cecid_fly", mango_cecid_fly), ("stem_borer", stem_borer)]
    "armyworm" armyworm rfl (by intro p hp2; cases hp2) rfl
    [] [("tungro", tungro), ("bacterial_leaf_blight", bacterial_leaf_blight),
     ("panama_disease", panama_disease)]
    "rice_blast" rice_blast rfl (by intro p hp2; cases hp2) rfl
  refine ⟨h.1, h.2.1, h.2.2.1, ?_⟩
  rw [h.2.2.2]
  rfl

end AgriAid
